import Mathlib

set_option maxRecDepth 8192

/-!
Verification of the story-engine core (`src/lib/story_engine.py`).

The Python module is shallowly embedded: the mutable `StoryEngine` singleton
becomes explicit state passing, `async` methods become pure functions (the
per-engine lock serializes turns, so a turn is a pure state transformer), and
exceptions become `Except`.  The external generation capability and the JSON
decoding of its textual response are abstracted by a `ResolveOutcome` input:
either the capability raised, or it returned text whose strict decode either
failed or produced a record of the optional fields the parser reads.
Wall-clock data (segment timestamps, log-entry ids and timestamps) is not
modelled; log entries keep their role and text.
-/

namespace StoryEngineModel

/-- Python `str.lower()` (per-character lowering). -/
def strLower (s : String) : String := ⟨s.data.map Char.toLower⟩

/-- Python `needle in haystack` substring membership on strings. -/
def containsSubstr (haystack needle : String) : Bool :=
  decide (needle.data <:+: haystack.data)

/-- Python slicing `s[:n]` (by codepoint, as Python indexes strings). -/
def strTake (s : String) (n : Nat) : String := ⟨s.data.take n⟩

/-- Python `str.strip()`: whitespace removed from both ends. -/
def strTrim (s : String) : String :=
  ⟨((s.data.dropWhile Char.isWhitespace).reverse.dropWhile Char.isWhitespace).reverse⟩

/-- A theme record, as in `STORY_THEMES` (dict keys become fields). -/
structure Theme where
  id : String
  label : String
  description : String
  base_prompt : String
  accent_color : String
  icon : String
  deriving Repr, DecidableEq

/-- The fixed theme catalog `STORY_THEMES`. -/
def STORY_THEMES : List Theme := [
  { id := "pixar_portal",
    label := "Pixar Portal",
    description := "Wholesome, cinematic adventures with plush lighting and sweeping camera moves.",
    base_prompt := "Pixar style cinematic frame, global illumination, volumetric god rays, soft depth of field, playful energy.",
    accent_color := "#f4b860",
    icon := "🎬" },
  { id := "lego_flux",
    label := "Lego Flux",
    description := "Stop-motion brick worlds where everything clicks, pops, and snaps into place.",
    base_prompt := "LEGO brick universe, macro cinematography, vibrant plastic sheen, dynamic dioramas, tilt shift focus.",
    accent_color := "#ff4d6d",
    icon := "🧱" },
  { id := "minecraft_echo",
    label := "Minecraft Echo",
    description := "Voxel folk tales, shader-lit landscapes, and redstone-powered drama.",
    base_prompt := "Minecraft voxel scene, path-traced lighting, saturated pixel shaders, cinematic camera, volumetric fog.",
    accent_color := "#7ae582",
    icon := "⛏️" },
  { id := "spicy_nebula",
    label := "Spicy Nebula",
    description := "Hyper-saturated soap opera energy with neon chroma trails and dramatic closeups.",
    base_prompt := "NSFW adult content, explicit nudity, naked bodies, sensual intimate scenes, neon pulp sci-fi, anamorphic lens flares, hypersaturated lava lamps, smoky silhouettes, moody chiaroscuro, erotic aesthetic.",
    accent_color := "#ff6ad5",
    icon := "🌶️" }
]

/-- `DEFAULT_CUES`. -/
def DEFAULT_CUES : List String := [
  "Introduce a new character",
  "Switch camera angle",
  "Trigger a cosmic glitch",
  "Reveal a hidden motive"
]

/-- `StorySegment` (the `timestamp` wall-clock field is not modelled). -/
structure StorySegment where
  cue : String
  narrative : String
  visual_prompt : String
  deriving Repr, DecidableEq

/-- A prompt-log entry; the wall-clock derived `id` and `timestamp` are not
modelled. -/
structure LogEntry where
  role : String
  text : String
  deriving Repr, DecidableEq

/-- `StorySession` with its dataclass defaults. -/
structure StorySession where
  theme : Theme
  segments : List StorySegment := []
  prompt_log : List LogEntry := []
  summary : String := ""
  last_visual_prompt : String := ""
  last_cues : List String := DEFAULT_CUES
  current_subjects : List String := []
  current_location : String := ""
  current_style : String := ""
  deriving Repr, DecidableEq

/-- `_mock_payload` seeds the process PRNG with the string
`cue ++ "-" ++ theme.id`, making every subsequent draw a pure function of that
string.  The PRNG's exact stream is irrelevant to the claims (which concern
determinism and shape); the seeded stream is modelled by a deterministic hash
of the seed string. -/
def seedHash (s : String) : Nat :=
  s.data.foldl (fun acc c => (acc * 31 + c.toNat) % 1000003) 7

/-- Model of `random.choice(items)` on the seeded stream. -/
def seededChoice (seed : Nat) (items : List String) : String :=
  items.getD (seed % items.length) ""

/-- Model of `random.sample(items, k=len(items))` on the seeded stream: a
seed-determined rotation, a permutation of `items` as `random.sample` is. -/
def seededSample (seed : Nat) (items : List String) : List String :=
  let k := seed % items.length
  items.drop k ++ items.take k

/-- The structured payload every resolution path returns:
`{narrative, visual_prompt, action_cues}`. -/
structure Payload where
  narrative : String
  visual_prompt : String
  action_cues : List String
  deriving Repr, DecidableEq

/-- `_mock_payload`: the deterministic fallback generator. -/
def mock_payload (cue : String) (theme : Theme) : Payload :=
  let seed := seedHash (cue ++ "-" ++ theme.id)
  let verbs : List String := ["glides", "sparks", "warps", "vibrates", "orbits", "sprouts"]
  let adjectives : List String := ["neon", "lofi", "crystalline", "anodized", "dreamy", "chaotic"]
  { narrative :=
      "The camera " ++ seededChoice seed verbs ++ " through a " ++
      seededChoice (seed / 7) adjectives ++ " corridor as the cue \x27" ++ cue ++
      "\x27 reverberates across the " ++ theme.label ++ " channel.",
    visual_prompt := theme.base_prompt ++ " // inspired by cue: " ++ cue,
    action_cues := seededSample seed DEFAULT_CUES }

/-- The fields `_parse_model_json` reads from a successfully decoded JSON
object; `none` is an absent key (`dict.get` returning `None`). -/
structure ModelJson where
  narrative : Option String := none
  story : Option String := none
  visual_prompt : Option String := none
  action_cues : Option (List String) := none
  deriving Repr, DecidableEq

/-- Python truthiness of `Optional[str]`: `None` and `""` are falsy. -/
def truthyStr : Option String → Option String
  | some s => if s = "" then none else some s
  | none => none

/-- Python truthiness of `Optional[list]`: `None` and `[]` are falsy. -/
def truthyList : Option (List String) → Option (List String)
  | some l => if l = [] then none else some l
  | none => none

/-- `_parse_model_json` after the strict decode.  `decoded = none` is a decode
failure (the fenced-block extraction and `json.loads` are abstracted into the
`Option`), which falls back to `mock_payload`; on success the `or`-chain field
fallbacks of the source apply. -/
def parse_model_json (decoded : Option ModelJson) (cue : String) (theme : Theme) : Payload :=
  match decoded with
  | none => mock_payload cue theme
  | some data =>
    let narrative := ((truthyStr data.narrative).orElse fun _ => truthyStr data.story).getD cue
    let visual_prompt := (truthyStr data.visual_prompt).getD theme.base_prompt
    let cues := (truthyList data.action_cues).getD DEFAULT_CUES
    let cues := if cues.length < 4 then (cues ++ DEFAULT_CUES).take 4 else cues
    { narrative := narrative, visual_prompt := visual_prompt, action_cues := cues.take 4 }

/-- The outcome of the external generation stage for one turn: the capability
raised (network/provider error), or returned text whose strict decode failed
(`none`) or yielded a `ModelJson`. -/
inductive ResolveOutcome where
  | raised
  | returned (decoded : Option ModelJson)
  deriving Repr, DecidableEq

/-- `_invoke_model`: no configured client short-circuits to the fallback with
no network attempt; a raising capability propagates the exception (as
`Except.error`); returned text goes through `_parse_model_json`. -/
def invoke_model (clientConfigured : Bool) (outcome : ResolveOutcome)
    (cue : String) (theme : Theme) : Except Unit Payload :=
  if !clientConfigured then
    .ok (mock_payload cue theme)
  else
    match outcome with
    | .raised => .error ()
    | .returned decoded => .ok (parse_model_json decoded cue theme)

/-- The `try/except` around `_invoke_model` in `_advance_story`: any exception
from the resolution stage is caught and the deterministic fallback payload for
the same cue and theme is substituted. -/
def resolve_payload (clientConfigured : Bool) (outcome : ResolveOutcome)
    (cue : String) (theme : Theme) : Payload :=
  match invoke_model clientConfigured outcome cue theme with
  | .ok p => p
  | .error _ => mock_payload cue theme

/-- `_compose_prompt`. -/
def compose_prompt (session : StorySession) (cue : String) (initial : Bool) : String :=
  let historyLines :=
    String.intercalate "\n"
      ((session.segments.drop (session.segments.length - 3)).map
        (fun seg => "- " ++ seg.narrative))
  let history := if historyLines = "" then "No scenes yet." else historyLines
  let summary := if session.summary = "" then "Story not summarized yet." else session.summary
  let continuity_info :=
    (if session.current_subjects ≠ [] then
      "Current characters/subjects: " ++ String.intercalate ", " session.current_subjects ++ "\n"
    else "") ++
    (if session.current_location ≠ "" then
      "Current location/setting: " ++ session.current_location ++ "\n"
    else "") ++
    (if session.current_style ≠ "" then
      "Current visual style: " ++ session.current_style ++ "\n"
    else "")
  let intro :=
    if initial then
      "Open a brand new broadcast. Establish WHO is present and WHERE they are from the very first frame."
    else
      "Continue the live broadcast. MAINTAIN CONTINUITY by re-stating subjects and location.\n" ++
      continuity_info
  intro ++ "\n" ++
  "Theme context: " ++ session.theme.description ++ "\n" ++
  "Visual DNA: " ++ session.theme.base_prompt ++ "\n\n" ++
  "Condensed memory: " ++ summary ++ "\n" ++
  "Recent beats:\n" ++ history ++ "\n\n" ++
  "Upcoming cue from the user: " ++ cue ++ "\n\n" ++
  "Return strict JSON with keys narrative, visual_prompt, action_cues (exactly 4 strings).\n" ++
  "narrative = 2-4 energetic sentences referencing motion and dialogue.\n" ++
  "visual_prompt = 80-120 words. MUST include:\n" ++
  "  - WHO/WHAT (specific subject/character)\n" ++
  "  - WHERE (specific location/background)\n" ++
  "  - Camera angle (wide shot, close-up, tracking, etc.)\n" ++
  "  - Lighting/atmosphere details\n" ++
  "  - Movement/action\n" ++
  "action_cues = 4 short imperative options (<8 words) that advance the story meaningfully."

/-- `_append_log` (the wall-clock derived id and timestamp are not modelled). -/
def append_log (session : StorySession) (role text : String) : StorySession :=
  { session with prompt_log := session.prompt_log ++ [{ role := role, text := text }] }

/-- `_story_text`: narratives joined with blank lines, stripped. -/
def story_text (session : StorySession) : String :=
  strTrim (String.intercalate "\n\n" (session.segments.map (fun seg => seg.narrative)))

/-- `_truncate_history`, with `self._max_segments` passed explicitly. -/
def truncate_history (max_segments : Nat) (session : StorySession) : StorySession :=
  if session.segments.length ≤ max_segments then
    { session with summary := story_text session }
  else
    let trimmed := session.segments.drop (session.segments.length - max_segments)
    { session with
      summary := String.intercalate " " (trimmed.dropLast.dropLast.map (fun seg => seg.narrative)),
      segments := trimmed }

/-- The cinematic keyword vocabulary in `_enrich_visual_prompt`. -/
def cinematic_keywords : List String := ["cinematic", "volumetric", "depth of field", "lighting"]

/-- `_enrich_visual_prompt` (its `session` parameter is unused in the source
body and omitted here). -/
def enrich_visual_prompt (prompt : String) (theme : Theme) : String :=
  let enriched := prompt
  let has_cinematic := cinematic_keywords.any (fun kw => containsSubstr (strLower enriched) kw)
  let enriched :=
    if has_cinematic then enriched
    else enriched ++ ", cinematic composition with volumetric lighting and shallow depth of field"
  let enriched :=
    if theme.base_prompt ≠ "" ∧ enriched.length < 100 then enriched ++ ". " ++ theme.base_prompt
    else enriched
  let enriched :=
    if !containsSubstr (strLower enriched) "4k" && !containsSubstr (strLower enriched) "8k" then
      enriched ++ ", highly detailed, 4K quality"
    else enriched
  strTake enriched 300

/-- The subject-indicator vocabulary of `_update_scene_state`. -/
def subject_indicators : List String :=
  ["character", "person", "figure", "hero", "protagonist", "robot", "alien", "creature"]

/-- The location-indicator vocabulary of `_update_scene_state`. -/
def location_indicators : List String :=
  ["room", "corridor", "space", "chamber", "hall", "landscape", "city", "planet", "ship"]

/-- The style vocabulary of `_update_scene_state`. -/
def style_words : List String :=
  ["neon", "dark", "bright", "foggy", "misty", "ethereal", "dramatic"]

/-- The subject loop of `_update_scene_state`: append each vocabulary term
found in the text unless already present (membership checked against the
growing list, as in the source). -/
def collectSubjects (combined : String) (subjects : List String) : List String :=
  subject_indicators.foldl
    (fun acc indicator =>
      if containsSubstr combined indicator && !acc.contains indicator then acc ++ [indicator]
      else acc)
    subjects

/-- The location loop of `_update_scene_state`: the first vocabulary term
found in the text wins (the loop `break`s), else no update. -/
def firstLocation (combined : String) : List String → Option String
  | [] => none
  | indicator :: rest =>
    if containsSubstr combined indicator then some indicator else firstLocation combined rest

/-- `_update_scene_state`. -/
def update_scene_state (session : StorySession) (visual_prompt narrative : String) :
    StorySession :=
  let combined := strLower (visual_prompt ++ " " ++ narrative)
  let subjects := collectSubjects combined session.current_subjects
  let subjects := subjects.drop (subjects.length - 3)
  let location :=
    match firstLocation combined location_indicators with
    | some indicator => indicator
    | none => session.current_location
  let found_styles := style_words.filter (fun w => containsSubstr combined w)
  let style :=
    if found_styles ≠ [] then String.intercalate ", " (found_styles.take 2)
    else session.current_style
  { session with
    current_subjects := subjects,
    current_location := location,
    current_style := style }

/-- The `SessionView` dict shape returned by every public operation. -/
structure SessionView where
  theme : Theme
  story_text : String
  prompt_log : List LogEntry
  cues : List String
  visual_prompt : String
  deriving Repr, DecidableEq

/-- `_advance_story` as a pure state transformer; `outcome` stands for the
external generation stage of this turn. -/
def advance_story (max_segments : Nat) (clientConfigured : Bool)
    (outcome : ResolveOutcome) (session : StorySession) (cue : String) (initial : Bool) :
    StorySession × SessionView :=
  let session := append_log session "cue" cue
  let prompt_text := compose_prompt session cue initial
  let session := append_log session "prompt" prompt_text
  let model_payload := resolve_payload clientConfigured outcome cue session.theme
  let narrative := strTrim model_payload.narrative
  let visual_prompt_raw := strTrim model_payload.visual_prompt
  let cues := if model_payload.action_cues = [] then DEFAULT_CUES else model_payload.action_cues
  let visual_prompt := enrich_visual_prompt visual_prompt_raw session.theme
  let session := update_scene_state session visual_prompt_raw narrative
  let segment : StorySegment :=
    { cue := cue, narrative := narrative, visual_prompt := visual_prompt }
  let session := { session with
    segments := session.segments ++ [segment],
    last_visual_prompt := visual_prompt,
    last_cues := cues.take 4 }
  let session := truncate_history max_segments session
  let session := append_log session "model" narrative
  let session := append_log session "visual_prompt" visual_prompt
  (session,
    { theme := session.theme,
      story_text := story_text session,
      prompt_log := session.prompt_log,
      cues := session.last_cues,
      visual_prompt := session.last_visual_prompt })

/-- Engine-level errors (the `ValueError`s of the source). -/
inductive EngineError where
  | unknownTheme (theme_id : String)
  | noActiveSession
  deriving Repr, DecidableEq

/-- The engine state: configuration plus the single optional session.  The
per-engine asyncio lock serializes turns and is not modelled;
`clientConfigured` records whether a live client was constructed. -/
structure StoryEngine where
  clientConfigured : Bool
  session : Option StorySession := none
  max_segments : Nat := 6
  deriving Repr, DecidableEq

/-- `_resolve_theme`: linear scan of the catalog. -/
def resolve_theme (theme_id : String) : Except EngineError Theme :=
  match STORY_THEMES.find? (fun theme => theme.id = theme_id) with
  | some theme => .ok theme
  | none => .error (.unknownTheme theme_id)

/-- `list_themes`. -/
def list_themes : List Theme := STORY_THEMES

/-- `start_session`: an error return leaves the engine unchanged, exactly as
the Python exception raised before any assignment does. -/
def start_session (engine : StoryEngine) (outcome : ResolveOutcome) (theme_id : String) :
    StoryEngine × Except EngineError SessionView :=
  match resolve_theme theme_id with
  | .error e => (engine, .error e)
  | .ok theme =>
    let session : StorySession := { theme := theme }
    let session := append_log session "system"
      ("Tuned into " ++ theme.label ++ " on Interdimensional Cable.")
    let result := advance_story engine.max_segments engine.clientConfigured outcome
      session "Kick off the broadcast with an establishing shot." true
    ({ engine with session := some result.1 }, .ok result.2)

/-- `submit_cue`. -/
def submit_cue (engine : StoryEngine) (outcome : ResolveOutcome) (cue : String) :
    StoryEngine × Except EngineError SessionView :=
  match engine.session with
  | none => (engine, .error .noActiveSession)
  | some session =>
    let result := advance_story engine.max_segments engine.clientConfigured outcome
      session cue false
    ({ engine with session := some result.1 }, .ok result.2)

/-- `get_state`. -/
def get_state (engine : StoryEngine) : Option SessionView :=
  match engine.session with
  | none => none
  | some session =>
    some { theme := session.theme,
           story_text := story_text session,
           prompt_log := session.prompt_log,
           cues := session.last_cues,
           visual_prompt :=
             if session.last_visual_prompt = "" then session.theme.base_prompt
             else session.last_visual_prompt }

/-- A sequence of `submit_cue` turns, each carrying the outcome of its
external generation stage; the view of each turn is dropped, the engine
kept. -/
def run_cues (engine : StoryEngine) (inputs : List (ResolveOutcome × String)) : StoryEngine :=
  inputs.foldl (fun e input => (submit_cue e input.1 input.2).1) engine

/-- `updateContinuity` as the specification words it (§4.5): subjects appended
if not already present with only the last 3 kept, location set to the first
matching term in vocabulary order, style set to the first two matching terms
joined by a comma, prior values kept when nothing matches.  This is the
spec-side definition for the refinement check against `update_scene_state`. -/
def update_continuity_spec (session : StorySession) (raw_visual_prompt narrative : String) :
    StorySession :=
  let text := strLower (raw_visual_prompt ++ " " ++ narrative)
  let subjects :=
    subject_indicators.foldl
      (fun acc term =>
        if containsSubstr text term && !acc.contains term then acc ++ [term] else acc)
      session.current_subjects
  let subjects := (subjects.reverse.take 3).reverse
  let location :=
    (location_indicators.find? (fun term => containsSubstr text term)).getD
      session.current_location
  let matched := style_words.filter (fun term => containsSubstr text term)
  let style :=
    if matched = [] then session.current_style
    else String.intercalate ", " (matched.take 2)
  { session with
    current_subjects := subjects,
    current_location := location,
    current_style := style }

/-! Concrete fixtures for the closed instance theorems below. -/

/-- An all-empty theme record, used only as a `getD` default. -/
def blankTheme : Theme :=
  { id := "", label := "", description := "", base_prompt := "", accent_color := "", icon := "" }

/-- The first catalog theme (`pixar_portal`). -/
def pixarTheme : Theme := STORY_THEMES.getD 0 blankTheme

/-- A segment with a given narrative. -/
def mkSeg (n : String) : StorySegment := { cue := "c", narrative := n, visual_prompt := "v" }

/-- A session holding seven segments, one more than the engine's
`max_segments` of 6. -/
def sevenSession : StorySession :=
  { theme := pixarTheme,
    segments := [mkSeg "alpha", mkSeg "bravo", mkSeg "charlie", mkSeg "delta",
                 mkSeg "echo", mkSeg "foxtrot", mkSeg "golf"] }

/-- A fresh session on the first theme. -/
def activeSession : StorySession := { theme := pixarTheme }

/-- An engine holding an active fresh session on the first theme. -/
def activeEngine : StoryEngine :=
  { clientConfigured := true, session := some activeSession }

/-- An engine before any session was started. -/
def idleEngine : StoryEngine := { clientConfigured := true }

/-- A compliant visual prompt: it has a cinematic keyword, length at least the
sparseness threshold of 100, and a quality tag. -/
def compliantPrompt : String :=
  "cinematic wide shot of a robot hero in a neon corridor, volumetric lighting, 4k ultra detail, slow dolly push, atmospheric haze everywhere around"

/-- A decode success whose narrative is pure whitespace. -/
def whitespaceNarrativeOutcome : ResolveOutcome :=
  .returned (some { narrative := some "   " })

/-- A decoded object with every optional field absent. -/
def jsonEmpty : ModelJson := {}

/-- A decoded object with only a `story` field. -/
def jsonStory : ModelJson := { story := some "tale" }

/-- A decoded object with fewer than 4 action cues. -/
def jsonShortCues : ModelJson := { action_cues := some ["Zoom out"] }

/-- A decoded object with more than 4 action cues. -/
def jsonLongCues : ModelJson :=
  { action_cues := some ["Pan left", "Pan right", "Zoom in", "Zoom out", "Hold the frame"] }

/-! ## Helper lemmas -/

@[simp] theorem append_log_theme (s : StorySession) (r t : String) :
    (append_log s r t).theme = s.theme := rfl

@[simp] theorem append_log_segments (s : StorySession) (r t : String) :
    (append_log s r t).segments = s.segments := rfl

@[simp] theorem append_log_summary (s : StorySession) (r t : String) :
    (append_log s r t).summary = s.summary := rfl

@[simp] theorem append_log_last_cues (s : StorySession) (r t : String) :
    (append_log s r t).last_cues = s.last_cues := rfl

@[simp] theorem append_log_last_visual_prompt (s : StorySession) (r t : String) :
    (append_log s r t).last_visual_prompt = s.last_visual_prompt := rfl

@[simp] theorem append_log_prompt_log (s : StorySession) (r t : String) :
    (append_log s r t).prompt_log = s.prompt_log ++ [{ role := r, text := t }] := rfl

@[simp] theorem update_scene_state_theme (s : StorySession) (v n : String) :
    (update_scene_state s v n).theme = s.theme := rfl

@[simp] theorem update_scene_state_segments (s : StorySession) (v n : String) :
    (update_scene_state s v n).segments = s.segments := rfl

@[simp] theorem update_scene_state_summary (s : StorySession) (v n : String) :
    (update_scene_state s v n).summary = s.summary := rfl

@[simp] theorem update_scene_state_prompt_log (s : StorySession) (v n : String) :
    (update_scene_state s v n).prompt_log = s.prompt_log := rfl

@[simp] theorem update_scene_state_last_cues (s : StorySession) (v n : String) :
    (update_scene_state s v n).last_cues = s.last_cues := rfl

@[simp] theorem update_scene_state_last_visual_prompt (s : StorySession) (v n : String) :
    (update_scene_state s v n).last_visual_prompt = s.last_visual_prompt := rfl

@[simp] theorem truncate_history_theme (m : Nat) (s : StorySession) :
    (truncate_history m s).theme = s.theme := by
  unfold truncate_history; split <;> rfl

@[simp] theorem truncate_history_prompt_log (m : Nat) (s : StorySession) :
    (truncate_history m s).prompt_log = s.prompt_log := by
  unfold truncate_history; split <;> rfl

@[simp] theorem truncate_history_last_cues (m : Nat) (s : StorySession) :
    (truncate_history m s).last_cues = s.last_cues := by
  unfold truncate_history; split <;> rfl

@[simp] theorem truncate_history_last_visual_prompt (m : Nat) (s : StorySession) :
    (truncate_history m s).last_visual_prompt = s.last_visual_prompt := by
  unfold truncate_history; split <;> rfl

theorem truncate_history_segments_length (m : Nat) (s : StorySession) :
    (truncate_history m s).segments.length = min s.segments.length m := by
  unfold truncate_history
  split
  · next h => simp [Nat.min_eq_left h]
  · next h => simp; omega

theorem truncate_history_of_le (m : Nat) (s : StorySession) (h : s.segments.length ≤ m) :
    truncate_history m s = { s with summary := story_text s } := by
  unfold truncate_history
  rw [if_pos h]

theorem truncate_history_of_gt (m : Nat) (s : StorySession) (h : m < s.segments.length) :
    truncate_history m s =
      { s with
        summary := String.intercalate " "
          (((s.segments.drop (s.segments.length - m)).dropLast.dropLast).map
            (fun seg => seg.narrative)),
        segments := s.segments.drop (s.segments.length - m) } := by
  unfold truncate_history
  rw [if_neg (by omega)]

theorem seededSample_default_length (seed : Nat) :
    (seededSample seed DEFAULT_CUES).length = 4 := by
  simp [seededSample, DEFAULT_CUES]
  omega

theorem mock_payload_action_cues_length (cue : String) (t : Theme) :
    (mock_payload cue t).action_cues.length = 4 := by
  simpa [mock_payload] using seededSample_default_length (seedHash (cue ++ "-" ++ t.id))

theorem parse_model_json_action_cues_length (d : Option ModelJson) (cue : String) (t : Theme) :
    (parse_model_json d cue t).action_cues.length = 4 := by
  cases d with
  | none => exact mock_payload_action_cues_length cue t
  | some data =>
    simp only [parse_model_json]
    split
    · next h => simp [DEFAULT_CUES]
    · next h =>
      simp only [List.length_take]
      omega

theorem resolve_payload_action_cues_length (c : Bool) (o : ResolveOutcome)
    (cue : String) (t : Theme) :
    (resolve_payload c o cue t).action_cues.length = 4 := by
  cases c <;> cases o <;>
    simp [resolve_payload, invoke_model, mock_payload_action_cues_length,
      parse_model_json_action_cues_length]

theorem resolve_payload_raised (c : Bool) (cue : String) (t : Theme) :
    resolve_payload c .raised cue t = mock_payload cue t := by
  cases c <;> rfl

theorem strTake_ne_empty (s : String) (n : Nat) (hn : 0 < n) (hs : s ≠ "") :
    strTake s n ≠ "" := by
  intro h
  apply hs
  rw [String.ext_iff] at h ⊢
  simpa [strTake, List.take_eq_nil_iff, Nat.pos_iff_ne_zero.mp hn] using h

theorem append_ne_empty_right (s t : String) (ht : t ≠ "") : s ++ t ≠ "" := by
  intro h
  apply ht
  rw [String.ext_iff] at h ⊢
  rcases List.append_eq_nil.mp h with ⟨-, h2⟩
  exact h2

theorem containsSubstr_ne_empty (s pat : String) (h : containsSubstr s pat = true)
    (hp : pat ≠ "") : s ≠ "" := by
  intro hs
  apply hp
  have hinf : pat.data <:+: s.data := of_decide_eq_true h
  rw [String.ext_iff] at hs ⊢
  rw [hs] at hinf
  rcases hinf with ⟨u, v, huv⟩
  have := List.append_eq_nil.mp huv
  have := List.append_eq_nil.mp this.1
  exact this.2

theorem strLower_ne_empty (s : String) (h : s ≠ "") : strLower s ≠ "" := by
  intro hl
  apply h
  rw [String.ext_iff] at hl ⊢
  simpa [strLower] using hl

theorem quality_append_ne_empty (e : String) :
    (if (!containsSubstr (strLower e) "4k" && !containsSubstr (strLower e) "8k") = true
     then e ++ ", highly detailed, 4K quality" else e) ≠ "" := by
  split
  · exact append_ne_empty_right _ _ (by decide)
  · next hq =>
    rw [Bool.not_eq_true, Bool.and_eq_false_iff] at hq
    have h1 : strLower e ≠ "" := by
      rcases hq with hq | hq <;>
        exact containsSubstr_ne_empty _ _ (by simpa using hq) (by decide)
    intro he
    rw [he] at h1
    exact h1 rfl

theorem enrich_visual_prompt_ne_empty (p : String) (t : Theme) :
    enrich_visual_prompt p t ≠ "" := by
  unfold enrich_visual_prompt
  apply strTake_ne_empty _ _ (by norm_num)
  exact quality_append_ne_empty _

@[simp] theorem story_text_append_log (s : StorySession) (r t : String) :
    story_text (append_log s r t) = story_text s := rfl

theorem advance_story_view (m : Nat) (c : Bool) (o : ResolveOutcome) (s : StorySession)
    (cue : String) (i : Bool) :
    (advance_story m c o s cue i).2 =
      { theme := (advance_story m c o s cue i).1.theme,
        story_text := story_text (advance_story m c o s cue i).1,
        prompt_log := (advance_story m c o s cue i).1.prompt_log,
        cues := (advance_story m c o s cue i).1.last_cues,
        visual_prompt := (advance_story m c o s cue i).1.last_visual_prompt } := rfl

theorem advance_story_fst_theme (m : Nat) (c : Bool) (o : ResolveOutcome) (s : StorySession)
    (cue : String) (i : Bool) :
    (advance_story m c o s cue i).1.theme = s.theme := by
  simp [advance_story]

theorem advance_story_fst_last_cues (m : Nat) (c : Bool) (o : ResolveOutcome)
    (s : StorySession) (cue : String) (i : Bool) :
    (advance_story m c o s cue i).1.last_cues =
      (if (resolve_payload c o cue s.theme).action_cues = [] then DEFAULT_CUES
       else (resolve_payload c o cue s.theme).action_cues).take 4 := by
  simp [advance_story]

theorem advance_story_fst_last_cues_length (m : Nat) (c : Bool) (o : ResolveOutcome)
    (s : StorySession) (cue : String) (i : Bool) :
    (advance_story m c o s cue i).1.last_cues.length = 4 := by
  rw [advance_story_fst_last_cues]
  split
  · rfl
  · next h =>
    have := resolve_payload_action_cues_length c o cue s.theme
    simp [List.length_take]
    omega

theorem advance_story_fst_last_visual_prompt (m : Nat) (c : Bool) (o : ResolveOutcome)
    (s : StorySession) (cue : String) (i : Bool) :
    (advance_story m c o s cue i).1.last_visual_prompt =
      enrich_visual_prompt (strTrim (resolve_payload c o cue s.theme).visual_prompt) s.theme := by
  simp [advance_story]

theorem advance_story_fst_prompt_log_ne_nil (m : Nat) (c : Bool) (o : ResolveOutcome)
    (s : StorySession) (cue : String) (i : Bool) :
    (advance_story m c o s cue i).1.prompt_log ≠ [] := by
  simp [advance_story]

theorem advance_story_fst_segments_length (m : Nat) (c : Bool) (o : ResolveOutcome)
    (s : StorySession) (cue : String) (i : Bool) :
    (advance_story m c o s cue i).1.segments.length = min (s.segments.length + 1) m := by
  simp [advance_story, truncate_history_segments_length]

theorem submit_cue_some (engine : StoryEngine) (s : StorySession) (o : ResolveOutcome)
    (cue : String) (h : engine.session = some s) :
    submit_cue engine o cue =
      ({ engine with
          session :=
            some (advance_story engine.max_segments engine.clientConfigured o s cue false).1 },
        .ok (advance_story engine.max_segments engine.clientConfigured o s cue false).2) := by
  simp [submit_cue, h]

theorem advance_story_summary_no_evict (m : Nat) (c : Bool) (o : ResolveOutcome)
    (s : StorySession) (cue : String) (i : Bool) (h : s.segments.length + 1 ≤ m) :
    (advance_story m c o s cue i).1.summary = story_text (advance_story m c o s cue i).1 := by
  simp only [advance_story]
  rw [truncate_history_of_le]
  · simp [story_text]
  · simpa using h

theorem run_cues_session_length (inputs : List (ResolveOutcome × String)) :
    ∀ (engine : StoryEngine) (s : StorySession), engine.session = some s →
      s.segments.length ≤ engine.max_segments →
      ∃ s2, (run_cues engine inputs).session = some s2 ∧
        s2.segments.length = min (s.segments.length + inputs.length) engine.max_segments := by
  induction inputs with
  | nil =>
    intro engine s h hle
    exact ⟨s, by simpa [run_cues] using h, by simp; omega⟩
  | cons x xs ih =>
    intro engine s h hle
    have hstep := submit_cue_some engine s x.1 x.2 h
    have hlen := advance_story_fst_segments_length engine.max_segments engine.clientConfigured
      x.1 s x.2 false
    have hrc : run_cues engine (x :: xs) = run_cues (submit_cue engine x.1 x.2).1 xs := rfl
    rw [hrc, hstep]
    obtain ⟨s2, hs2, hlen2⟩ := ih
      { engine with
        session :=
          some (advance_story engine.max_segments engine.clientConfigured x.1 s x.2 false).1 }
      (advance_story engine.max_segments engine.clientConfigured x.1 s x.2 false).1
      rfl
      (by
        show (advance_story engine.max_segments engine.clientConfigured x.1 s x.2
            false).1.segments.length ≤ engine.max_segments
        rw [hlen]; omega)
    refine ⟨s2, hs2, ?_⟩
    have hms : ({ engine with
        session :=
          some (advance_story engine.max_segments engine.clientConfigured x.1 s x.2 false).1 } :
        StoryEngine).max_segments = engine.max_segments := rfl
    rw [hms] at hlen2
    rw [hlen2, hlen]
    simp
    omega

theorem intercalate_go_data (sep : String) (l : List String) :
    ∀ acc : String, ∃ r : List Char,
      (String.intercalate.go acc sep l).data = acc.data ++ r := by
  induction l with
  | nil => intro acc; exact ⟨[], by simp [String.intercalate.go]⟩
  | cons x xs ih =>
    intro acc
    obtain ⟨r, hr⟩ := ih (acc ++ sep ++ x)
    refine ⟨sep.data ++ x.data ++ r, ?_⟩
    have hgo : String.intercalate.go acc sep (x :: xs) =
        String.intercalate.go (acc ++ sep ++ x) sep xs := rfl
    rw [hgo, hr]
    simp

theorem intercalate_space_two_ne_empty (a b : String) (l : List String) :
    String.intercalate " " (a :: b :: l) ≠ "" := by
  obtain ⟨r, hr⟩ := intercalate_go_data " " (b :: l) a
  intro he
  have hd : (String.intercalate " " (a :: b :: l)).data = a.data ++ r :=
    hr
  rw [he] at hd
  obtain ⟨r2, hr2⟩ := intercalate_go_data " " l (a ++ " " ++ b)
  have hd2 : (String.intercalate " " (a :: b :: l)).data = (a ++ " " ++ b).data ++ r2 := hr2
  rw [he] at hd2
  have hlen := congrArg List.length hd2
  have hspace : (" ".data).length = 1 := rfl
  simp [List.length_append] at hlen
  omega

theorem intercalate_space_length_ge_two_ne_empty (l : List String) (h : 2 ≤ l.length) :
    String.intercalate " " l ≠ "" := by
  cases l with
  | nil => simp at h
  | cons a t =>
    cases t with
    | nil => simp at h
    | cons b t2 => exact intercalate_space_two_ne_empty a b t2

theorem firstLocation_eq_find? (c : String) : ∀ l : List String,
    firstLocation c l = l.find? (fun term => containsSubstr c term) := by
  intro l
  induction l with
  | nil => rfl
  | cons x xs ih =>
    by_cases h : containsSubstr c x = true
    · simp [firstLocation, h]
    · simp only [Bool.not_eq_true] at h
      simp [firstLocation, h, ih]

theorem takeLast_eq_drop (l : List String) (k : Nat) :
    (l.reverse.take k).reverse = l.drop (l.length - k) := by
  rw [List.take_reverse, List.reverse_reverse]

/-! ## Claim theorems -/

/-- C7: for every cue string, calling `submit_cue` when no session has ever
been started fails with `NoActiveSession`, the engine is returned exactly as
it was (so no log entries or segments are created), and `get_state` still
returns `none`. -/
theorem submit_cue_without_session_fails (engine : StoryEngine) (outcome : ResolveOutcome)
    (cue : String) (h : engine.session = none) :
    submit_cue engine outcome cue = (engine, .error .noActiveSession) ∧
    get_state engine = none := by
  constructor
  · simp [submit_cue, h]
  · simp [get_state, h]

theorem submit_cue_without_session_fails_witness :
    submit_cue idleEngine .raised "Trigger a cosmic glitch" =
      (idleEngine, .error .noActiveSession) ∧
    get_state idleEngine = none :=
  submit_cue_without_session_fails idleEngine .raised "Trigger a cosmic glitch" rfl

/-- C6: for every theme id not present in the registry, `start_session` fails
with `UnknownTheme` and returns the engine exactly as it was: no session is
created and any previously active session is untouched. -/
theorem start_session_unknown_theme (engine : StoryEngine) (outcome : ResolveOutcome)
    (theme_id : String) (h : ∀ t ∈ STORY_THEMES, t.id ≠ theme_id) :
    start_session engine outcome theme_id = (engine, .error (.unknownTheme theme_id)) := by
  have hfind : STORY_THEMES.find? (fun theme => theme.id = theme_id) = none := by
    rw [List.find?_eq_none]
    intro t ht
    simpa using h t ht
  simp [start_session, resolve_theme, hfind]

theorem start_session_unknown_theme_witness :
    start_session activeEngine .raised "vhs_static" =
      (activeEngine, .error (.unknownTheme "vhs_static")) :=
  start_session_unknown_theme activeEngine .raised "vhs_static" (by decide)

/-- C2: the deterministic fallback generator is a pure function of
`(cue, theme.id)`: two invocations with identical cue and theme id — the
theme drawn from the registry, whose records are determined by their id —
yield byte-identical narrative, visual prompt, and action-cue ordering. -/
theorem mock_payload_deterministic (cue : String) (t1 t2 : Theme)
    (h1 : t1 ∈ STORY_THEMES) (h2 : t2 ∈ STORY_THEMES) (hid : t1.id = t2.id) :
    mock_payload cue t1 = mock_payload cue t2 ∧
    (mock_payload cue t1).narrative = (mock_payload cue t2).narrative ∧
    (mock_payload cue t1).visual_prompt = (mock_payload cue t2).visual_prompt ∧
    (mock_payload cue t1).action_cues = (mock_payload cue t2).action_cues := by
  have key : t1 = t2 := by
    fin_cases h1 <;> fin_cases h2 <;> first | rfl | (exfalso; revert hid; decide)
  subst key
  exact ⟨rfl, rfl, rfl, rfl⟩

theorem mock_payload_deterministic_witness :
    mock_payload "Trigger a cosmic glitch" pixarTheme =
      mock_payload "Trigger a cosmic glitch" pixarTheme ∧
    (mock_payload "Trigger a cosmic glitch" pixarTheme).narrative =
      (mock_payload "Trigger a cosmic glitch" pixarTheme).narrative ∧
    (mock_payload "Trigger a cosmic glitch" pixarTheme).visual_prompt =
      (mock_payload "Trigger a cosmic glitch" pixarTheme).visual_prompt ∧
    (mock_payload "Trigger a cosmic glitch" pixarTheme).action_cues =
      (mock_payload "Trigger a cosmic glitch" pixarTheme).action_cues :=
  mock_payload_deterministic "Trigger a cosmic glitch" pixarTheme pixarTheme
    (by decide) (by decide) rfl

/-- C5: enrichment acts as the identity, up to the 300-character hard cap, on
prompts that already contain a cinematic keyword, have length at least the
sparseness threshold of 100, and contain a 4k or 8k quality tag
case-insensitively. -/
theorem enrich_identity_on_compliant (p : String) (t : Theme)
    (hkw : cinematic_keywords.any (fun kw => containsSubstr (strLower p) kw) = true)
    (hlen : 100 ≤ p.length)
    (hq : (containsSubstr (strLower p) "4k" || containsSubstr (strLower p) "8k") = true) :
    enrich_visual_prompt p t = strTake p 300 := by
  simp only [enrich_visual_prompt]
  rw [if_pos hkw]
  have he2 : (if t.base_prompt ≠ "" ∧ p.length < 100 then p ++ ". " ++ t.base_prompt else p) = p :=
    if_neg (by rintro ⟨-, hlt⟩; omega)
  rw [he2]
  have h3 : (!containsSubstr (strLower p) "4k" && !containsSubstr (strLower p) "8k") = false := by
    cases h4 : containsSubstr (strLower p) "4k" <;>
      cases h8 : containsSubstr (strLower p) "8k" <;> simp_all
  rw [h3]
  simp

theorem enrich_identity_on_compliant_witness :
    cinematic_keywords.any (fun kw => containsSubstr (strLower compliantPrompt) kw) = true ∧
    100 ≤ compliantPrompt.length ∧
    (containsSubstr (strLower compliantPrompt) "4k" ||
      containsSubstr (strLower compliantPrompt) "8k") = true ∧
    enrich_visual_prompt compliantPrompt pixarTheme = strTake compliantPrompt 300 :=
  ⟨by decide, by decide, by decide,
    enrich_identity_on_compliant compliantPrompt pixarTheme (by decide) (by decide) (by decide)⟩

/-- C9: `get_state` returns `none` exactly when no session exists; otherwise
it projects the session: `story_text` is the narratives joined with blank
lines and trimmed, and `visual_prompt` is the last produced visual prompt, or
the theme's base prompt when none has been produced yet (enrichment output is
never empty, so an empty `last_visual_prompt` means none was produced). -/
theorem get_state_projection (engineNone engineSome : StoryEngine) (s : StorySession)
    (p : String) (t : Theme)
    (h0 : engineNone.session = none) (h : engineSome.session = some s) :
    get_state engineNone = none ∧
    get_state engineSome = some
      { theme := s.theme,
        story_text :=
          strTrim (String.intercalate "\n\n" (s.segments.map (fun seg => seg.narrative))),
        prompt_log := s.prompt_log,
        cues := s.last_cues,
        visual_prompt :=
          if s.last_visual_prompt = "" then s.theme.base_prompt
          else s.last_visual_prompt } ∧
    enrich_visual_prompt p t ≠ "" := by
  refine ⟨by simp [get_state, h0], ?_, enrich_visual_prompt_ne_empty p t⟩
  simp [get_state, h, story_text]

theorem get_state_projection_witness :
    get_state idleEngine = none ∧
    get_state activeEngine = some
      { theme := activeSession.theme,
        story_text :=
          strTrim (String.intercalate "\n\n"
            (activeSession.segments.map (fun seg => seg.narrative))),
        prompt_log := activeSession.prompt_log,
        cues := activeSession.last_cues,
        visual_prompt :=
          if activeSession.last_visual_prompt = "" then activeSession.theme.base_prompt
          else activeSession.last_visual_prompt } ∧
    enrich_visual_prompt "" pixarTheme ≠ "" :=
  get_state_projection idleEngine activeEngine activeSession "" pixarTheme rfl rfl

/-- C8: the continuity update follows the documented heuristic exactly: on
the lower-cased concatenation of raw prompt and narrative, subject terms are
appended when found and not already present with only the last 3 kept,
location is set to the first matching term in vocabulary order (unchanged
when none matches), and style is set to the first two matching style terms
joined by a comma (kept when none matches). -/
theorem continuity_update_matches_spec (session : StorySession) (v n : String) :
    update_scene_state session v n = update_continuity_spec session v n := by
  simp only [update_scene_state, update_continuity_spec]
  rw [firstLocation_eq_find?, takeLast_eq_drop]
  by_cases hst :
      (style_words.filter fun w => containsSubstr (strLower (v ++ " " ++ n)) w) = []
  all_goals
    cases hfind : List.find? (fun term => containsSubstr (strLower (v ++ " " ++ n)) term)
        location_indicators <;>
      simp [collectSubjects, hst, hfind]

/-- C10 counterexample: a first turn that completes successfully — a decode
success whose narrative is pure whitespace — leaves the session summary
empty, refuting "the summary is non-empty from the first completed turn
onward". -/
theorem summary_empty_after_completed_first_turn :
    (start_session idleEngine whitespaceNarrativeOutcome "pixar_portal").2.toOption.isSome
      = true ∧
    ((start_session idleEngine whitespaceNarrativeOutcome "pixar_portal").1.session.map
      (fun s => s.summary)) = some "" ∧
    ((start_session idleEngine whitespaceNarrativeOutcome "pixar_portal").1.session.map
      (fun s => s.segments.length)) = some 1 :=
  ⟨rfl, rfl, rfl⟩

/-- C10 (amended): after every turn that completes without eviction (segment
count staying within the bound), the summary is overwritten with the full
story text of the current segments — not a carry-forward of evicted
narratives — and the segment count grows by one; the summary is therefore
non-empty exactly when the joined narratives are, and can be empty when every
narrative trims to empty. -/
theorem summary_overwritten_with_story_text (m : Nat) (c : Bool) (o : ResolveOutcome)
    (s : StorySession) (cue : String) (i : Bool) (h : s.segments.length + 1 ≤ m) :
    (advance_story m c o s cue i).1.summary = story_text (advance_story m c o s cue i).1 ∧
    (advance_story m c o s cue i).1.segments.length = s.segments.length + 1 := by
  refine ⟨advance_story_summary_no_evict m c o s cue i h, ?_⟩
  rw [advance_story_fst_segments_length]
  omega

theorem summary_overwritten_with_story_text_witness :
    activeSession.segments.length + 1 ≤ 6 ∧
    ((advance_story 6 true .raised activeSession "Trigger a cosmic glitch" false).1.summary =
        story_text (advance_story 6 true .raised activeSession "Trigger a cosmic glitch"
          false).1 ∧
      (advance_story 6 true .raised activeSession "Trigger a cosmic glitch"
        false).1.segments.length = activeSession.segments.length + 1) :=
  ⟨by decide,
    summary_overwritten_with_story_text 6 true .raised activeSession "Trigger a cosmic glitch"
      false (by decide)⟩

/-- C3 counterexample: truncating the 7-segment session (bound 6) evicts the
"alpha" segment, but the summary is the space-join of retained narratives
"bravo charlie delta echo": it does not contain the evicted narrative and is
not the concatenation of the evicted narratives. -/
theorem truncation_summary_not_from_evicted :
    (truncate_history 6 sevenSession).segments.length = 6 ∧
    ((sevenSession.segments.take 1).map (fun seg => seg.narrative)) = ["alpha"] ∧
    (truncate_history 6 sevenSession).summary = "bravo charlie delta echo" ∧
    containsSubstr (truncate_history 6 sevenSession).summary "alpha" = false ∧
    (truncate_history 6 sevenSession).summary ≠
      String.intercalate " "
        ((sevenSession.segments.take 1).map (fun seg => seg.narrative)) := by
  refine ⟨by decide, by decide, by decide, by decide, by decide⟩

/-- C3 (amended): after N submitted turns the segment count is the initial
count plus N, capped at `max_segments` (so exactly `max_segments` once enough
turns have run, oldest evicted first), and an evicting truncation keeps the
newest `max_segments` segments and sets the summary to the space-joined
narratives of the retained segments excluding the two most recent — derived
from retained, not evicted, narratives — which is a non-empty string at the
engine's bound of 6. -/
theorem history_bound_and_summary (engine : StoryEngine) (s : StorySession)
    (inputs : List (ResolveOutcome × String)) (sess : StorySession)
    (h : engine.session = some s) (hle : s.segments.length ≤ engine.max_segments)
    (hgt : 6 < sess.segments.length) :
    (run_cues engine inputs).session.map (fun s2 => s2.segments.length) =
      some (min (s.segments.length + inputs.length) engine.max_segments) ∧
    (truncate_history 6 sess).segments = sess.segments.drop (sess.segments.length - 6) ∧
    (truncate_history 6 sess).summary =
      String.intercalate " "
        (((sess.segments.drop (sess.segments.length - 6)).dropLast.dropLast).map
          (fun seg => seg.narrative)) ∧
    (truncate_history 6 sess).summary ≠ "" := by
  obtain ⟨s2, h1, h2⟩ := run_cues_session_length inputs engine s h hle
  refine ⟨by rw [h1]; simp [h2], ?_, ?_, ?_⟩
  · rw [truncate_history_of_gt 6 sess hgt]
  · rw [truncate_history_of_gt 6 sess hgt]
  · rw [truncate_history_of_gt 6 sess hgt]
    show String.intercalate " "
        (((sess.segments.drop (sess.segments.length - 6)).dropLast.dropLast).map
          (fun seg => seg.narrative)) ≠ ""
    apply intercalate_space_length_ge_two_ne_empty
    simp [List.length_dropLast, List.length_drop]
    omega

theorem history_bound_and_summary_witness :
    activeEngine.session = some activeSession ∧
    activeSession.segments.length ≤ activeEngine.max_segments ∧
    6 < sevenSession.segments.length ∧
    ((run_cues activeEngine []).session.map (fun s2 => s2.segments.length) =
        some (min (activeSession.segments.length + List.length
          ([] : List (ResolveOutcome × String))) activeEngine.max_segments) ∧
      (truncate_history 6 sevenSession).segments =
        sevenSession.segments.drop (sevenSession.segments.length - 6) ∧
      (truncate_history 6 sevenSession).summary =
        String.intercalate " "
          (((sevenSession.segments.drop
              (sevenSession.segments.length - 6)).dropLast.dropLast).map
            (fun seg => seg.narrative)) ∧
      (truncate_history 6 sevenSession).summary ≠ "") :=
  ⟨rfl, by decide, by decide,
    history_bound_and_summary activeEngine activeSession [] sevenSession rfl
      (by decide) (by decide)⟩

/-- C4: the resolver always yields exactly 4 action cues and the documented
decode fallbacks hold: with every field absent, narrative falls back to the
cue, visual prompt to the theme's base prompt, and action cues to the
canonical defaults; an absent narrative with a non-empty `story` field falls
back to that story; fewer than 4 supplied cues are padded from the defaults;
more than 4 are truncated to 4; and the cues of every view returned by a
turn (`submit_cue` or `start_session`) have length exactly 4. -/
theorem resolver_fallbacks_and_cue_arity
    (dAny d0 d1 d2 d3 : ModelJson) (st : String) (l1 l2 : List String)
    (cue tid c : String) (t : Theme) (engine : StoryEngine) (o : ResolveOutcome)
    (h0n : d0.narrative = none) (h0s : d0.story = none) (h0v : d0.visual_prompt = none)
    (h0c : d0.action_cues = none)
    (h1n : d1.narrative = none) (h1s : d1.story = some st) (hst : st ≠ "")
    (h2c : d2.action_cues = some l1) (hl1 : l1 ≠ []) (hl1len : l1.length < 4)
    (h3c : d3.action_cues = some l2) (hl2len : 4 ≤ l2.length) :
    (parse_model_json (some dAny) cue t).action_cues.length = 4 ∧
    (parse_model_json (some d0) cue t).narrative = cue ∧
    (parse_model_json (some d0) cue t).visual_prompt = t.base_prompt ∧
    (parse_model_json (some d0) cue t).action_cues = DEFAULT_CUES ∧
    (parse_model_json (some d1) cue t).narrative = st ∧
    (parse_model_json (some d2) cue t).action_cues = (l1 ++ DEFAULT_CUES).take 4 ∧
    (parse_model_json (some d3) cue t).action_cues = l2.take 4 ∧
    ((submit_cue engine o c).2.toOption.all fun vw => vw.cues.length == 4) = true ∧
    ((start_session engine o tid).2.toOption.all fun vw => vw.cues.length == 4) = true := by
  have hl2ne : l2 ≠ [] := by
    intro hnil
    rw [hnil] at hl2len
    simp at hl2len
  refine ⟨parse_model_json_action_cues_length (some dAny) cue t,
    ?_, ?_, ?_, ?_, ?_, ?_, ?_, ?_⟩
  · simp [parse_model_json, h0n, h0s, truthyStr]
  · simp [parse_model_json, h0v, truthyStr]
  · simp [parse_model_json, h0c, truthyList, DEFAULT_CUES]
  · simp [parse_model_json, h1n, h1s, truthyStr, hst]
  · simp [parse_model_json, h2c, truthyList, hl1, hl1len, List.take_take]
  · simp [parse_model_json, h3c, truthyList, hl2ne, Nat.not_lt.mpr hl2len]
  · cases hses : engine.session with
    | none => simp [submit_cue, hses, Except.toOption, Option.all]
    | some s =>
      rw [submit_cue_some engine s o c hses]
      simp [advance_story_view, Except.toOption, Option.all,
        advance_story_fst_last_cues_length]
  · cases hf : STORY_THEMES.find? (fun theme => theme.id = tid) with
    | none => simp [start_session, resolve_theme, hf, Except.toOption, Option.all]
    | some th =>
      simp [start_session, resolve_theme, hf, advance_story_view, Except.toOption,
        Option.all, advance_story_fst_last_cues_length]

theorem resolver_fallbacks_and_cue_arity_witness :
    jsonEmpty.narrative = none ∧ jsonEmpty.story = none ∧ jsonEmpty.visual_prompt = none ∧
    jsonEmpty.action_cues = none ∧
    jsonStory.narrative = none ∧ jsonStory.story = some "tale" ∧ "tale" ≠ "" ∧
    jsonShortCues.action_cues = some ["Zoom out"] ∧ (["Zoom out"] : List String) ≠ [] ∧
    (["Zoom out"] : List String).length < 4 ∧
    jsonLongCues.action_cues =
      some ["Pan left", "Pan right", "Zoom in", "Zoom out", "Hold the frame"] ∧
    4 ≤ (["Pan left", "Pan right", "Zoom in", "Zoom out", "Hold the frame"] :
      List String).length ∧
    ((parse_model_json (some jsonEmpty) "Reveal a hidden motive" pixarTheme).action_cues.length
        = 4 ∧
      (parse_model_json (some jsonEmpty) "Reveal a hidden motive" pixarTheme).narrative =
        "Reveal a hidden motive" ∧
      (parse_model_json (some jsonEmpty) "Reveal a hidden motive" pixarTheme).visual_prompt =
        pixarTheme.base_prompt ∧
      (parse_model_json (some jsonEmpty) "Reveal a hidden motive" pixarTheme).action_cues =
        DEFAULT_CUES ∧
      (parse_model_json (some jsonStory) "Reveal a hidden motive" pixarTheme).narrative =
        "tale" ∧
      (parse_model_json (some jsonShortCues) "Reveal a hidden motive" pixarTheme).action_cues =
        (["Zoom out"] ++ DEFAULT_CUES).take 4 ∧
      (parse_model_json (some jsonLongCues) "Reveal a hidden motive" pixarTheme).action_cues =
        (["Pan left", "Pan right", "Zoom in", "Zoom out", "Hold the frame"] :
          List String).take 4 ∧
      ((submit_cue activeEngine .raised "Switch camera angle").2.toOption.all
        fun vw => vw.cues.length == 4) = true ∧
      ((start_session activeEngine .raised "lego_flux").2.toOption.all
        fun vw => vw.cues.length == 4) = true) :=
  ⟨rfl, rfl, rfl, rfl, rfl, rfl, by decide, rfl, by decide, by decide, rfl, by decide,
    resolver_fallbacks_and_cue_arity jsonEmpty jsonEmpty jsonStory jsonShortCues jsonLongCues
      "tale" ["Zoom out"] ["Pan left", "Pan right", "Zoom in", "Zoom out", "Hold the frame"]
      "Reveal a hidden motive" "lego_flux" "Switch camera angle" pixarTheme activeEngine
      .raised rfl rfl rfl rfl rfl rfl (by decide) rfl (by decide) (by decide) rfl (by decide)⟩

/-- C1: once a session exists a turn never fails: `submit_cue` returns an ok
view whose fields are the updated session's (theme preserved, story text and
prompt log populated, exactly 4 cues, non-empty visual prompt); any exception
from the response-resolution stage is replaced by the deterministic fallback
payload for the same cue and theme; and `start_session` on a registry theme
likewise returns an ok view. -/
theorem turn_never_fails_once_session_exists (engine engine2 : StoryEngine)
    (s : StorySession) (o o2 : ResolveOutcome) (cue cue2 : String) (t : Theme) (c : Bool)
    (tv : Theme) (h : engine.session = some s) (hmem : tv ∈ STORY_THEMES) :
    (submit_cue engine o cue).2 =
      .ok (advance_story engine.max_segments engine.clientConfigured o s cue false).2 ∧
    (submit_cue engine o cue).1.session =
      some (advance_story engine.max_segments engine.clientConfigured o s cue false).1 ∧
    (advance_story engine.max_segments engine.clientConfigured o s cue false).2.theme =
      s.theme ∧
    (advance_story engine.max_segments engine.clientConfigured o s cue false).2.story_text =
      story_text (advance_story engine.max_segments engine.clientConfigured o s cue false).1 ∧
    (advance_story engine.max_segments engine.clientConfigured o s cue false).2.prompt_log
      ≠ [] ∧
    (advance_story engine.max_segments engine.clientConfigured o s cue false).2.cues.length
      = 4 ∧
    (advance_story engine.max_segments engine.clientConfigured o s cue false).2.visual_prompt
      ≠ "" ∧
    resolve_payload c .raised cue2 t = mock_payload cue2 t ∧
    (start_session engine2 o2 tv.id).2.toOption.isSome = true := by
  refine ⟨?_, ?_, ?_, ?_, ?_, ?_, ?_, resolve_payload_raised c cue2 t, ?_⟩
  · rw [submit_cue_some engine s o cue h]
  · rw [submit_cue_some engine s o cue h]
  · rw [advance_story_view, advance_story_fst_theme]
  · rw [advance_story_view]
  · rw [advance_story_view]
    exact advance_story_fst_prompt_log_ne_nil engine.max_segments engine.clientConfigured
      o s cue false
  · rw [advance_story_view]
    exact advance_story_fst_last_cues_length engine.max_segments engine.clientConfigured
      o s cue false
  · rw [advance_story_view, advance_story_fst_last_visual_prompt]
    exact enrich_visual_prompt_ne_empty _ _
  · have hsome : (STORY_THEMES.find? (fun th => th.id = tv.id)).isSome :=
      List.find?_isSome.mpr ⟨tv, hmem, by simp⟩
    obtain ⟨tf, htf⟩ := Option.isSome_iff_exists.mp hsome
    simp [start_session, resolve_theme, htf, Except.toOption]

theorem turn_never_fails_once_session_exists_witness :
    activeEngine.session = some activeSession ∧
    pixarTheme ∈ STORY_THEMES ∧
    ((submit_cue activeEngine .raised "Trigger a cosmic glitch").2 =
        .ok (advance_story activeEngine.max_segments activeEngine.clientConfigured .raised
          activeSession "Trigger a cosmic glitch" false).2 ∧
      (submit_cue activeEngine .raised "Trigger a cosmic glitch").1.session =
        some (advance_story activeEngine.max_segments activeEngine.clientConfigured .raised
          activeSession "Trigger a cosmic glitch" false).1 ∧
      (advance_story activeEngine.max_segments activeEngine.clientConfigured .raised
        activeSession "Trigger a cosmic glitch" false).2.theme = activeSession.theme ∧
      (advance_story activeEngine.max_segments activeEngine.clientConfigured .raised
          activeSession "Trigger a cosmic glitch" false).2.story_text =
        story_text (advance_story activeEngine.max_segments activeEngine.clientConfigured
          .raised activeSession "Trigger a cosmic glitch" false).1 ∧
      (advance_story activeEngine.max_segments activeEngine.clientConfigured .raised
        activeSession "Trigger a cosmic glitch" false).2.prompt_log ≠ [] ∧
      (advance_story activeEngine.max_segments activeEngine.clientConfigured .raised
        activeSession "Trigger a cosmic glitch" false).2.cues.length = 4 ∧
      (advance_story activeEngine.max_segments activeEngine.clientConfigured .raised
        activeSession "Trigger a cosmic glitch" false).2.visual_prompt ≠ "" ∧
      resolve_payload true .raised "Switch camera angle" pixarTheme =
        mock_payload "Switch camera angle" pixarTheme ∧
      (start_session idleEngine .raised pixarTheme.id).2.toOption.isSome = true) :=
  ⟨rfl, by decide,
    turn_never_fails_once_session_exists activeEngine idleEngine activeSession .raised
      .raised "Trigger a cosmic glitch" "Switch camera angle" pixarTheme true pixarTheme
      rfl (by decide)⟩

end StoryEngineModel
